import Mathlib

/-!
Verification development for the Skyscope-macOS-Patcher GPU bridge core.

The definitions below shallowly embed the cache, allocator and
command-buffer bookkeeping code of the repository:

* `src/nvbridge_metal.cpp` — shader cache (`lookupShaderInCache`,
  `addShaderToCache`), `NVBridgeMetalCompileShader`, and the DJB2-style
  pipeline-state fingerprints of `NVBridgeMetalCreatePipelineState` /
  `NVBridgeMetalCreateComputePipelineState`.
* `src/src/nvidia/nvbridge_core.cpp` — `NVBridgeCore` memory allocation
  tracking, command-buffer table and its `initialize` early-return.
* `src/src/nvidia/nvbridge_metal.cpp` — `NVMetalCommandBuffer`
  commit / waitUntilCompleted state machine.

Machine integers are modelled as `Nat` with explicit `% 2 ^ w` where the
source wraps (`uint32_t` source hash, `uint64_t` pipeline hash).  Kernel
allocation results and driver entry points (`IOMalloc` outcomes,
`nvAllocateMemory`, `nvSubmitCommand`, the external shader translator)
are environmental, so they enter the model as explicit oracle
parameters; everything else follows the C++ control flow line by line.
Pointer-validity checks on out-parameters (which have no meaning in a
value-level model) are elided.
-/

/-- MAX_SHADER_CACHE_ENTRIES from src/nvbridge_metal.cpp. -/
def MAX_SHADER_CACHE_ENTRIES : Nat := 256

/-- MAX_PIPELINE_CACHE_ENTRIES from src/nvbridge_metal.cpp. -/
def MAX_PIPELINE_CACHE_ENTRIES : Nat := 64

/-- IOKit status code kIOReturnSuccess. -/
def kIOReturnSuccess : Nat := 0

/-- IOKit status code kIOReturnNotReady. -/
def kIOReturnNotReady : Nat := 0xe00002d8

/-- IOKit status code kIOReturnBadArgument. -/
def kIOReturnBadArgument : Nat := 0xe00002c2

/-- IOKit status code kIOReturnNoMemory. -/
def kIOReturnNoMemory : Nat := 0xe00002bd

/-- METAL_SHADER_TYPE_VERTEX from src/nvbridge_metal.cpp. -/
def METAL_SHADER_TYPE_VERTEX : Nat := 1

/-- METAL_SHADER_TYPE_FRAGMENT from src/nvbridge_metal.cpp. -/
def METAL_SHADER_TYPE_FRAGMENT : Nat := 2

/-- METAL_SHADER_TYPE_COMPUTE from src/nvbridge_metal.cpp. -/
def METAL_SHADER_TYPE_COMPUTE : Nat := 3

/-- METAL_SHADER_TYPE_KERNEL from src/nvbridge_metal.cpp. -/
def METAL_SHADER_TYPE_KERNEL : Nat := 4

/-- One step `hashValue = ((hashValue << 5) + hashValue) + byte` of the
rolling hash over the shader source in `NVBridgeMetalCompileShader`,
performed on a `uint32_t`. -/
def djb2Step32 (h b : Nat) : Nat := (((h <<< 5) + h) + b) % 2 ^ 32

/-- One step `hash = ((hash << 5) + hash) + byte` of the pipeline-state
hash in `NVBridgeMetalCreatePipelineState`, performed on a `uint64_t`. -/
def djb2Step64 (h b : Nat) : Nat := (((h <<< 5) + h) + b) % 2 ^ 64

/-- The `hashValue` computed over all bytes of the shader source in
`NVBridgeMetalCompileShader` (seeded at zero). -/
def shaderSourceHash (src : List Nat) : Nat := src.foldl djb2Step32 0

/-- The shader-cache key.  The source builds the C string
`"shader_%u_%u" % (shaderType, hashValue)`; that format is injective in
the pair, so the key is modelled as `(shaderType, hashValue)`. -/
abbrev ShaderKey := Nat × Nat

/-- One shader-cache table: `gShaderCache[0..gShaderCacheEntries)` in
slot order, each slot holding `(key, payload bytes)`. -/
abbrev ShaderCacheTable := List (ShaderKey × List Nat)

/-- The update-in-place scan at the top of `addShaderToCache`: find the
first slot whose key matches and replace its payload, or report that no
slot matches. -/
def shaderCacheUpdateExisting (k : ShaderKey) (p : List Nat) :
    ShaderCacheTable → Option ShaderCacheTable
  | [] => none
  | e :: rest =>
    if e.1 = k then some ((k, p) :: rest)
    else (shaderCacheUpdateExisting k p rest).map (e :: ·)

/-- addShaderToCache from src/nvbridge_metal.cpp: overwrite the first
matching slot; otherwise append while the table has fewer than
`MAX_SHADER_CACHE_ENTRIES` entries; otherwise replace slot 0. -/
def addShaderToCache (k : ShaderKey) (p : List Nat) (es : ShaderCacheTable) :
    ShaderCacheTable :=
  match shaderCacheUpdateExisting k p es with
  | some es' => es'
  | none =>
    if es.length < MAX_SHADER_CACHE_ENTRIES then es ++ [(k, p)]
    else es.set 0 (k, p)

/-- lookupShaderInCache from src/nvbridge_metal.cpp: linear scan from
slot 0, returning the payload of the first slot whose key matches. -/
def lookupShaderInCache (k : ShaderKey) : ShaderCacheTable → Option (List Nat)
  | [] => none
  | e :: rest => if e.1 = k then some e.2 else lookupShaderInCache k rest

/-- State of the Metal compatibility layer relevant to shader
compilation: the `gMetalInitialized` flag and the shader cache. -/
structure MetalState where
  inited : Bool
  shaderCache : ShaderCacheTable
deriving DecidableEq

/-- Oracle for the two external steps invoked on a cache miss.  In the
source both can fail (with an IOReturn code) only through kernel
allocation, which is environmental; the model therefore takes their
outcomes as parameters. -/
structure ShaderTranslator where
  translateMetalShaderToNVPTX : List Nat → Nat → Except Nat (List Nat)
  compileNVPTXToBinary : List Nat → Except Nat (List Nat)

/-- Result of one `NVBridgeMetalCompileShader` call: the IOReturn /
payload outcome, the post-call state, and how many times each external
step was invoked during the call. -/
structure CompileOutcome where
  result : Except Nat (List Nat)
  state : MetalState
  translateCalls : Nat
  compileCalls : Nat

/-- NVBridgeMetalCompileShader from src/nvbridge_metal.cpp: check the
layer is initialized and the shader type valid, build the cache key from
the shader type and source hash, return a cache hit directly, and
otherwise translate, compile, cache and return the result (propagating
an external failure without inserting anything). -/
def NVBridgeMetalCompileShader (ext : ShaderTranslator) (st : MetalState)
    (src : List Nat) (ty : Nat) : CompileOutcome :=
  if st.inited = false then ⟨.error kIOReturnNotReady, st, 0, 0⟩
  else if ty = METAL_SHADER_TYPE_VERTEX ∨ ty = METAL_SHADER_TYPE_FRAGMENT ∨
      ty = METAL_SHADER_TYPE_COMPUTE ∨ ty = METAL_SHADER_TYPE_KERNEL then
    let key : ShaderKey := (ty, shaderSourceHash src)
    match lookupShaderInCache key st.shaderCache with
    | some payload => ⟨.ok payload, st, 0, 0⟩
    | none =>
      match ext.translateMetalShaderToNVPTX src ty with
      | .error e => ⟨.error e, st, 1, 0⟩
      | .ok ptx =>
        match ext.compileNVPTXToBinary ptx with
        | .error e => ⟨.error e, st, 1, 1⟩
        | .ok bin =>
          ⟨.ok bin, { st with shaderCache := addShaderToCache key bin st.shaderCache }, 1, 1⟩
  else ⟨.error kIOReturnBadArgument, st, 0, 0⟩

/-- Folding `addShaderToCache` over a list of (key, payload) pairs,
starting from a given table. -/
def shaderCacheInsertAll (pairs : List (ShaderKey × List Nat))
    (es : ShaderCacheTable) : ShaderCacheTable :=
  pairs.foldl (fun acc e => addShaderToCache e.1 e.2 acc) es

/-- The `uint64_t` pipeline-state hash of
`NVBridgeMetalCreatePipelineState`: seeded at zero, folded over the
vertex-shader bytes, then the fragment-shader bytes when a fragment
shader is present, then the raw bytes of the `NVBridgePipelineDesc`
struct. -/
def createPipelineStateHash (vertexShader : List Nat)
    (fragmentShader : Option (List Nat)) (descBytes : List Nat) : Nat :=
  let h := vertexShader.foldl djb2Step64 0
  let h := match fragmentShader with
    | some f => f.foldl djb2Step64 h
    | none => h
  descBytes.foldl djb2Step64 h

/-- The `uint64_t` compute-pipeline hash of
`NVBridgeMetalCreateComputePipelineState`: seeded at zero, folded over
the compute-shader bytes, then the raw `NVBridgeComputePipelineDesc`
bytes, then one extra step with the constant `0xC0FFEE`. -/
def createComputePipelineStateHash (computeShader : List Nat)
    (descBytes : List Nat) : Nat :=
  let h := computeShader.foldl djb2Step64 0
  let h := descBytes.foldl djb2Step64 h
  djb2Step64 h 0xC0FFEE

/-- NVIDIA::MemoryInfo from src/src/nvidia/nvbridge_core.cpp, restricted
to the budget-relevant fields. -/
structure NVMemoryInfo where
  totalMemory : Nat
  usedMemory : Nat
  freeMemory : Nat
deriving DecidableEq

/-- NVIDIA::CommandBuffer from src/src/nvidia/nvbridge_core.cpp.  The
`cmdBufferPtr` is `none` for a null pointer. -/
structure NVCommandBuffer where
  id : Nat
  cmdBufferPtr : Option Nat
  cmdBufferSize : Nat
  cmdBufferUsed : Nat
  submitted : Bool
  completed : Bool
deriving DecidableEq

/-- The zero-filled record `createCommandBuffer` builds first and
returns from its uninitialized branch (its intended allocation-failure
return of the same record is unreachable, see
`NVBridgeCore_createCommandBuffer`). -/
def defaultCommandBuffer : NVCommandBuffer :=
  { id := 0, cmdBufferPtr := none, cmdBufferSize := 0, cmdBufferUsed := 0,
    submitted := false, completed := false }

/-- State of one `NVBridgeCore` instance: the `m_initialized` flag,
which driver entry points `loadDriverFunctions` resolved, the
`m_impl->allocations` map (association list keyed by pointer, in map
order), the `m_impl->commandBuffers` vector, and `m_impl->memoryInfo`. -/
structure NVCoreState where
  inited : Bool
  hasAllocFn : Bool
  hasFreeFn : Bool
  hasSubmitFn : Bool
  hasWaitFn : Bool
  allocations : List (Nat × Nat)
  commandBuffers : List NVCommandBuffer
  memoryInfo : NVMemoryInfo
deriving DecidableEq

/-- The effect of `m_impl->allocations[ptr] = size` on a `std::map`
represented as an association list: overwrite the record keyed by `ptr`
if present, else insert one. -/
def allocationsUpsert (ptr size : Nat) : List (Nat × Nat) → List (Nat × Nat)
  | [] => [(ptr, size)]
  | e :: rest =>
    if e.1 = ptr then (ptr, size) :: rest else e :: allocationsUpsert ptr size rest

/-- The effect of `m_impl->allocations.find(ptr)`: the recorded size of
the allocation keyed by `ptr`, if live. -/
def allocationsFind (ptr : Nat) : List (Nat × Nat) → Option Nat
  | [] => none
  | e :: rest => if e.1 = ptr then some e.2 else allocationsFind ptr rest

/-- The effect of `m_impl->allocations.erase(it)`: drop the record keyed
by `ptr` (a `std::map` holds at most one). -/
def allocationsErase (ptr : Nat) : List (Nat × Nat) → List (Nat × Nat)
  | [] => []
  | e :: rest => if e.1 = ptr then rest else e :: allocationsErase ptr rest

/-- NVBridgeCore::allocateMemory from src/src/nvidia/nvbridge_core.cpp.
`driverPtr` is the pointer returned by the external `nvAllocateMemory`
entry point (`none` for null).  On success the raw requested `size` is
recorded against the returned pointer; nothing else changes. -/
def NVBridgeCore_allocateMemory (s : NVCoreState) (size flags : Nat)
    (driverPtr : Option Nat) : Option Nat × NVCoreState :=
  if s.inited = false then (none, s)
  else if s.hasAllocFn = false then (none, s)
  else
    match driverPtr with
    | some ptr => (some ptr, { s with allocations := allocationsUpsert ptr size s.allocations })
    | none => (none, s)

/-- Which branch of NVBridgeCore::freeMemory ran. -/
inductive FreeMemoryResult where
  | freedOk
  | notInited
  | freeFnMissing
  | unknownHandle
deriving DecidableEq

/-- NVBridgeCore::freeMemory from src/src/nvidia/nvbridge_core.cpp.  The
third component counts how many times the external `nvFreeMemory` entry
point (the underlying reservation release) was invoked by the call. -/
def NVBridgeCore_freeMemory (s : NVCoreState) (ptr : Nat) :
    FreeMemoryResult × NVCoreState × Nat :=
  if s.inited = false then (.notInited, s, 0)
  else if s.hasFreeFn = false then (.freeFnMissing, s, 0)
  else
    match allocationsFind ptr s.allocations with
    | some _ => (.freedOk, { s with allocations := allocationsErase ptr s.allocations }, 1)
    | none => (.unknownHandle, s, 0)

/-- Outcome of a public member call with respect to the object's single
non-recursive `std::mutex`: either the call returns a value, or it
attempts to re-lock the mutex it is already holding — undefined
behavior that with a standard `std::mutex` blocks forever, so the call
never returns. -/
inductive LockedCall (α : Type) where
  | returned (a : α)
  | deadlock
deriving DecidableEq

/-- NVBridgeCore::createCommandBuffer from
src/src/nvidia/nvbridge_core.cpp, with the mutex discipline included.
The `lock_guard` at the top of the function acquires the free
`m_mutex`; the uninitialized branch then returns the zero-filled
record, registering nothing.  The initialized branch calls the public
member `allocateMemory`, whose own `lock_guard` re-locks the same
non-recursive `std::mutex` while it is still held: undefined behavior,
in practice a self-deadlock, so the call never returns and the rest of
the body (the null check that would return the zero-filled record on
allocation failure, the id assignment `commandBuffers.size() + 1` and
the registration) is unreachable.  `driverPtr` — the outcome the
nested `nvAllocateMemory` would produce — is therefore never consulted. -/
def NVBridgeCore_createCommandBuffer (s : NVCoreState) (driverPtr : Option Nat) :
    LockedCall (NVCommandBuffer × NVCoreState) :=
  if s.inited = false then .returned (defaultCommandBuffer, s)
  else .deadlock

/-- The search loop of NVBridgeCore::submitCommandBuffer: act on the
first command buffer whose id matches, leave the rest untouched.
`driverResult` is the status returned by `nvSubmitCommand` (0 means
success). -/
def submitScan (driverResult targetId : Nat) :
    List NVCommandBuffer → Bool × List NVCommandBuffer
  | [] => (false, [])
  | cb :: rest =>
    if cb.id = targetId then
      if cb.submitted then (false, cb :: rest)
      else if driverResult ≠ 0 then (false, cb :: rest)
      else (true, { cb with submitted := true } :: rest)
    else
      let r := submitScan driverResult targetId rest
      (r.1, cb :: r.2)

/-- NVBridgeCore::submitCommandBuffer from
src/src/nvidia/nvbridge_core.cpp. -/
def NVBridgeCore_submitCommandBuffer (s : NVCoreState) (cmd : NVCommandBuffer)
    (driverResult : Nat) : Bool × NVCoreState :=
  if s.inited = false then (false, s)
  else if s.hasSubmitFn = false then (false, s)
  else
    let r := submitScan driverResult cmd.id s.commandBuffers
    (r.1, { s with commandBuffers := r.2 })

/-- The search loop of NVBridgeCore::waitForCommandBuffer.
`driverResult` is the status returned by `nvWaitForCompletion`. -/
def waitScan (driverResult targetId : Nat) :
    List NVCommandBuffer → Bool × List NVCommandBuffer
  | [] => (false, [])
  | cb :: rest =>
    if cb.id = targetId then
      if cb.submitted = false then (false, cb :: rest)
      else if cb.completed then (true, cb :: rest)
      else if driverResult ≠ 0 then (false, cb :: rest)
      else (true, { cb with completed := true } :: rest)
    else
      let r := waitScan driverResult targetId rest
      (r.1, cb :: r.2)

/-- NVBridgeCore::waitForCommandBuffer from
src/src/nvidia/nvbridge_core.cpp. -/
def NVBridgeCore_waitForCommandBuffer (s : NVCoreState) (cmd : NVCommandBuffer)
    (driverResult : Nat) : Bool × NVCoreState :=
  if s.inited = false then (false, s)
  else if s.hasWaitFn = false then (false, s)
  else
    let r := waitScan driverResult cmd.id s.commandBuffers
    (r.1, { s with commandBuffers := r.2 })

/-- NVBridgeCore::InitStatus from src/src/nvidia/nvbridge_core.cpp. -/
inductive InitStatus where
  | SUCCESS
  | DEVICE_NOT_FOUND
  | DRIVER_NOT_LOADED
  | MEMORY_ALLOCATION_FAILED
  | COMMAND_QUEUE_CREATION_FAILED
  | METAL_INITIALIZATION_FAILED
  | UNKNOWN_ERROR
deriving DecidableEq

/-- NVBridgeCore::isDeviceSupported: GTX 970 / GTX 980 / GTX 1080. -/
def isDeviceSupported (deviceID : Nat) : Bool :=
  deviceID = 0x13C2 || deviceID = 0x13C0 || deviceID = 0x1B80

/-- Environmental outcomes of the setup stages invoked by
NVBridgeCore::initialize (IOKit device search, hardware bring-up with
driver symbol resolution, memory manager, command processor, Metal
interop). -/
structure CoreInitEnv where
  deviceFound : Bool
  hardwareOk : Bool
  memoryOk : Bool
  commandOk : Bool
  metalOk : Bool
deriving DecidableEq

/-- NVBridgeCore::initialize from src/src/nvidia/nvbridge_core.cpp
(named `initCore` here).  If `m_initialized` is already set it returns
SUCCESS at once, touching nothing.  Otherwise it runs the staged setup;
the fully successful path resolves all driver entry points and sets
`memoryInfo` to the 4 GiB budget with zero used, per
`initializeMemoryManager`. -/
def NVBridgeCore_initCore (s : NVCoreState) (deviceID : Nat) (forceInit : Bool)
    (env : CoreInitEnv) : InitStatus × NVCoreState :=
  if s.inited then (.SUCCESS, s)
  else if isDeviceSupported deviceID = false && forceInit = false then
    (.DEVICE_NOT_FOUND, s)
  else if env.deviceFound = false then (.DEVICE_NOT_FOUND, s)
  else if env.hardwareOk = false then (.DRIVER_NOT_LOADED, s)
  else if env.memoryOk = false then (.MEMORY_ALLOCATION_FAILED, s)
  else if env.commandOk = false then (.COMMAND_QUEUE_CREATION_FAILED, s)
  else if env.metalOk = false then (.METAL_INITIALIZATION_FAILED, s)
  else
    (.SUCCESS,
      { s with inited := true, hasAllocFn := true, hasFreeFn := true,
               hasSubmitFn := true, hasWaitFn := true,
               memoryInfo := { totalMemory := 4 * 2 ^ 30, usedMemory := 0,
                               freeMemory := 4 * 2 ^ 30 } })

/-- One allocate or free call, with the environmental driver outcome for
the allocate case. -/
inductive MemOp where
  | alloc (size flags : Nat) (driverPtr : Option Nat)
  | free (ptr : Nat)

/-- Run one memory operation for its state effect. -/
def runMemOp (s : NVCoreState) : MemOp → NVCoreState
  | .alloc size flags ptr => (NVBridgeCore_allocateMemory s size flags ptr).2
  | .free ptr => (NVBridgeCore_freeMemory s ptr).2.1

/-- Run a sequence of allocate/free calls. -/
def runMemOps (s : NVCoreState) (ops : List MemOp) : NVCoreState :=
  ops.foldl runMemOp s

/-- Rounding a size up to the 4096-byte alignment boundary, the quantity
the specification says allocation accounting uses. -/
def alignTo4096 (n : Nat) : Nat := ((n + 4095) / 4096) * 4096

/-- Sum of the 4096-aligned sizes of the currently-live allocations, the
quantity the specification says `usedMemory` equals. -/
def alignedLiveSum (s : NVCoreState) : Nat :=
  (s.allocations.map (fun e => alignTo4096 e.2)).sum

/-- NVMetalCommandBuffer from src/src/nvidia/nvbridge_metal.cpp: the
`committed` / `completed` flags and whether an encoder is active. -/
structure NVMetalCmdBuf where
  committed : Bool
  completed : Bool
  activeEncoder : Bool
deriving DecidableEq

/-- Which branch of NVMetalCommandBuffer::commit ran.  Both return
normally; the second is only a logged warning. -/
inductive CommitOutcome where
  | committedNow
  | alreadyCommittedWarning
deriving DecidableEq

/-- NVMetalCommandBuffer::commit from src/src/nvidia/nvbridge_metal.cpp.
The third component counts the `NVBridge_FlushCommands` invocations made
by the call. -/
def NVMetalCmdBuf_commit (b : NVMetalCmdBuf) : NVMetalCmdBuf × CommitOutcome × Nat :=
  if b.committed then (b, .alreadyCommittedWarning, 0)
  else ({ committed := true, completed := b.completed, activeEncoder := false },
        .committedNow, 1)

/-- Which branch of NVMetalCommandBuffer::waitUntilCompleted ran.  The
not-committed case is the `NotCommitted` failure: a logged warning and
an immediate return with no state change. -/
inductive WaitOutcome where
  | notCommittedWarning
  | ok
deriving DecidableEq

/-- NVMetalCommandBuffer::waitUntilCompleted from
src/src/nvidia/nvbridge_metal.cpp. -/
def NVMetalCmdBuf_waitUntilCompleted (b : NVMetalCmdBuf) : NVMetalCmdBuf × WaitOutcome :=
  if b.committed = false then (b, .notCommittedWarning)
  else if b.completed then (b, .ok)
  else ({ b with completed := true }, .ok)

theorem shaderCacheUpdateExisting_eq_none (k : ShaderKey) (p : List Nat) :
    ∀ es : ShaderCacheTable, k ∉ es.map Prod.fst →
      shaderCacheUpdateExisting k p es = none := by
  intro es
  induction es with
  | nil => intro _; rfl
  | cons e rest ih =>
    intro h
    simp only [List.map_cons, List.mem_cons] at h
    push_neg at h
    obtain ⟨h1, h2⟩ := h
    have h1' : ¬ e.1 = k := fun hh => h1 hh.symm
    simp [shaderCacheUpdateExisting, h1', Option.map_eq_none', ih h2]

theorem lookupShaderInCache_of_updateExisting_none (k : ShaderKey) (p : List Nat) :
    ∀ es : ShaderCacheTable, shaderCacheUpdateExisting k p es = none →
      lookupShaderInCache k es = none := by
  intro es
  induction es with
  | nil => intro _; rfl
  | cons e rest ih =>
    intro h
    by_cases hk : e.1 = k
    · simp [shaderCacheUpdateExisting, hk] at h
    · simp only [shaderCacheUpdateExisting, hk, if_false, Option.map_eq_none'] at h
      simp [lookupShaderInCache, hk, ih h]

theorem lookupShaderInCache_of_updateExisting_some (k : ShaderKey) (p : List Nat) :
    ∀ es es' : ShaderCacheTable, shaderCacheUpdateExisting k p es = some es' →
      lookupShaderInCache k es' = some p := by
  intro es
  induction es with
  | nil => intro es' h; simp [shaderCacheUpdateExisting] at h
  | cons e rest ih =>
    intro es' h
    by_cases hk : e.1 = k
    · simp only [shaderCacheUpdateExisting, hk, if_true, Option.some.injEq] at h
      subst h
      simp [lookupShaderInCache]
    · simp only [shaderCacheUpdateExisting, hk, if_false, Option.map_eq_some'] at h
      obtain ⟨a, ha, rfl⟩ := h
      simp [lookupShaderInCache, hk, ih a ha]

theorem lookupShaderInCache_append_of_none (k : ShaderKey) :
    ∀ es l : ShaderCacheTable, lookupShaderInCache k es = none →
      lookupShaderInCache k (es ++ l) = lookupShaderInCache k l := by
  intro es
  induction es with
  | nil => intro l _; rfl
  | cons e rest ih =>
    intro l h
    by_cases hk : e.1 = k
    · simp [lookupShaderInCache, hk] at h
    · simp only [lookupShaderInCache, hk, if_false] at h
      simp [lookupShaderInCache, hk, ih l h]

theorem lookupShaderInCache_addShaderToCache_self (k : ShaderKey) (p : List Nat)
    (es : ShaderCacheTable) :
    lookupShaderInCache k (addShaderToCache k p es) = some p := by
  unfold addShaderToCache
  cases h : shaderCacheUpdateExisting k p es with
  | some es' => exact lookupShaderInCache_of_updateExisting_some k p es es' h
  | none =>
    have hn : lookupShaderInCache k es = none :=
      lookupShaderInCache_of_updateExisting_none k p es h
    by_cases hlen : es.length < MAX_SHADER_CACHE_ENTRIES
    · simp only [hlen, if_true]
      rw [lookupShaderInCache_append_of_none k es [(k, p)] hn]
      simp [lookupShaderInCache]
    · simp only [hlen, if_false]
      cases es with
      | nil => simp [MAX_SHADER_CACHE_ENTRIES] at hlen
      | cons e rest => simp [lookupShaderInCache]

/-- C1: compiling the same (source, shader type) twice through
`NVBridgeMetalCompileShader` returns byte-identical payloads; the second
call is a cache hit that leaves the state unchanged and invokes neither
`translateMetalShaderToNVPTX` nor `compileNVPTXToBinary` a second
time. -/
theorem claim1_compile_shader_twice_cache_hit
    (ext : ShaderTranslator) (st : MetalState) (src : List Nat) (ty : Nat)
    (p : List Nat)
    (h1 : (NVBridgeMetalCompileShader ext st src ty).result = .ok p) :
    (NVBridgeMetalCompileShader ext (NVBridgeMetalCompileShader ext st src ty).state src ty).result = .ok p ∧
    (NVBridgeMetalCompileShader ext (NVBridgeMetalCompileShader ext st src ty).state src ty).state =
      (NVBridgeMetalCompileShader ext st src ty).state ∧
    (NVBridgeMetalCompileShader ext (NVBridgeMetalCompileShader ext st src ty).state src ty).translateCalls = 0 ∧
    (NVBridgeMetalCompileShader ext (NVBridgeMetalCompileShader ext st src ty).state src ty).compileCalls = 0 := by
  by_cases hin : st.inited = false
  · simp [NVBridgeMetalCompileShader, hin] at h1
  · by_cases hty : ty = METAL_SHADER_TYPE_VERTEX ∨ ty = METAL_SHADER_TYPE_FRAGMENT ∨
        ty = METAL_SHADER_TYPE_COMPUTE ∨ ty = METAL_SHADER_TYPE_KERNEL
    · cases hl : lookupShaderInCache (ty, shaderSourceHash src) st.shaderCache with
      | some q =>
        have hfirst : NVBridgeMetalCompileShader ext st src ty = ⟨.ok q, st, 0, 0⟩ := by
          simp [NVBridgeMetalCompileShader, hin, hty, hl]
        have hq : q = p := by
          rw [hfirst] at h1
          simpa using h1
        rw [hfirst]
        simp [NVBridgeMetalCompileShader, hin, hty, hl, hq]
      | none =>
        cases htr : ext.translateMetalShaderToNVPTX src ty with
        | error e => simp [NVBridgeMetalCompileShader, hin, hty, hl, htr] at h1
        | ok ptx =>
          cases hcp : ext.compileNVPTXToBinary ptx with
          | error e => simp [NVBridgeMetalCompileShader, hin, hty, hl, htr, hcp] at h1
          | ok bin =>
            have hfirst : NVBridgeMetalCompileShader ext st src ty =
                ⟨.ok bin,
                 { st with shaderCache :=
                     addShaderToCache (ty, shaderSourceHash src) bin st.shaderCache },
                 1, 1⟩ := by
              simp [NVBridgeMetalCompileShader, hin, hty, hl, htr, hcp]
            have hbin : bin = p := by
              rw [hfirst] at h1
              simpa using h1
            subst hbin
            rw [hfirst]
            have hl2 : lookupShaderInCache (ty, shaderSourceHash src)
                (addShaderToCache (ty, shaderSourceHash src) bin st.shaderCache) = some bin :=
              lookupShaderInCache_addShaderToCache_self _ _ _
            simp [NVBridgeMetalCompileShader, hin, hty, hl2]
    · simp [NVBridgeMetalCompileShader, hin, hty] at h1

/-- Witness for C1 at a concrete translator, state and shader. -/
theorem claim1_compile_shader_twice_cache_hit_witness :
    (NVBridgeMetalCompileShader ⟨fun _ _ => .ok [1, 2], fun _ => .ok [9, 9, 9]⟩
      (NVBridgeMetalCompileShader ⟨fun _ _ => .ok [1, 2], fun _ => .ok [9, 9, 9]⟩
        ⟨true, []⟩ [104, 105] 1).state [104, 105] 1).result = .ok [9, 9, 9] ∧
    (NVBridgeMetalCompileShader ⟨fun _ _ => .ok [1, 2], fun _ => .ok [9, 9, 9]⟩
      (NVBridgeMetalCompileShader ⟨fun _ _ => .ok [1, 2], fun _ => .ok [9, 9, 9]⟩
        ⟨true, []⟩ [104, 105] 1).state [104, 105] 1).state =
      (NVBridgeMetalCompileShader ⟨fun _ _ => .ok [1, 2], fun _ => .ok [9, 9, 9]⟩
        ⟨true, []⟩ [104, 105] 1).state ∧
    (NVBridgeMetalCompileShader ⟨fun _ _ => .ok [1, 2], fun _ => .ok [9, 9, 9]⟩
      (NVBridgeMetalCompileShader ⟨fun _ _ => .ok [1, 2], fun _ => .ok [9, 9, 9]⟩
        ⟨true, []⟩ [104, 105] 1).state [104, 105] 1).translateCalls = 0 ∧
    (NVBridgeMetalCompileShader ⟨fun _ _ => .ok [1, 2], fun _ => .ok [9, 9, 9]⟩
      (NVBridgeMetalCompileShader ⟨fun _ _ => .ok [1, 2], fun _ => .ok [9, 9, 9]⟩
        ⟨true, []⟩ [104, 105] 1).state [104, 105] 1).compileCalls = 0 :=
  claim1_compile_shader_twice_cache_hit
    ⟨fun _ _ => .ok [1, 2], fun _ => .ok [9, 9, 9]⟩ ⟨true, []⟩ [104, 105] 1 [9, 9, 9] rfl

/-- C6: the compute-pipeline fingerprint equals the render fingerprint
of the same shader and descriptor bytes (with no fragment shader)
followed by exactly one extra DJB2 step with the salt constant 0xC0FFEE;
and both fingerprints are the rolling multiply-add hash, seeded at zero,
over the concatenated input bytes in documented order. -/
theorem claim6_pipeline_fingerprint_salt :
    (∀ shader desc : List Nat,
      createComputePipelineStateHash shader desc =
        djb2Step64 (createPipelineStateHash shader none desc) 0xC0FFEE) ∧
    (∀ v f d : List Nat,
      createPipelineStateHash v (some f) d = ((v ++ f) ++ d).foldl djb2Step64 0) ∧
    (∀ v d : List Nat,
      createPipelineStateHash v none d = (v ++ d).foldl djb2Step64 0) := by
  refine ⟨fun shader desc => rfl, fun v f d => ?_, fun v d => ?_⟩
  · simp [createPipelineStateHash, List.foldl_append]
  · simp [createPipelineStateHash, List.foldl_append]

/-- C7: waiting on a never-committed command buffer takes the
not-committed warning branch and leaves the buffer uncommitted and
uncompleted; committing twice returns normally both times, the second
being only the already-committed warning, and `NVBridge_FlushCommands`
runs exactly once across the two commits. -/
theorem claim7_command_buffer_state_machine (b : NVMetalCmdBuf)
    (hc : b.committed = false) (hd : b.completed = false) :
    NVMetalCmdBuf_waitUntilCompleted b = (b, .notCommittedWarning) ∧
    (NVMetalCmdBuf_waitUntilCompleted b).1.committed = false ∧
    (NVMetalCmdBuf_waitUntilCompleted b).1.completed = false ∧
    (NVMetalCmdBuf_commit b).2.1 = .committedNow ∧
    (NVMetalCmdBuf_commit (NVMetalCmdBuf_commit b).1).2.1 = .alreadyCommittedWarning ∧
    (NVMetalCmdBuf_commit (NVMetalCmdBuf_commit b).1).1.committed = true ∧
    (NVMetalCmdBuf_commit b).2.2 + (NVMetalCmdBuf_commit (NVMetalCmdBuf_commit b).1).2.2 = 1 := by
  simp [NVMetalCmdBuf_waitUntilCompleted, NVMetalCmdBuf_commit, hc, hd]

/-- Witness for C7 at the freshly constructed command buffer. -/
theorem claim7_command_buffer_state_machine_witness :
    NVMetalCmdBuf_waitUntilCompleted ⟨false, false, false⟩ =
      (⟨false, false, false⟩, .notCommittedWarning) ∧
    (NVMetalCmdBuf_waitUntilCompleted ⟨false, false, false⟩).1.committed = false ∧
    (NVMetalCmdBuf_waitUntilCompleted ⟨false, false, false⟩).1.completed = false ∧
    (NVMetalCmdBuf_commit ⟨false, false, false⟩).2.1 = .committedNow ∧
    (NVMetalCmdBuf_commit (NVMetalCmdBuf_commit ⟨false, false, false⟩).1).2.1 =
      .alreadyCommittedWarning ∧
    (NVMetalCmdBuf_commit (NVMetalCmdBuf_commit ⟨false, false, false⟩).1).1.committed = true ∧
    (NVMetalCmdBuf_commit ⟨false, false, false⟩).2.2 +
      (NVMetalCmdBuf_commit (NVMetalCmdBuf_commit ⟨false, false, false⟩).1).2.2 = 1 :=
  claim7_command_buffer_state_machine ⟨false, false, false⟩ rfl rfl

/-- C8: when the external translate or compile step fails on a cache
miss, `NVBridgeMetalCompileShader` returns that error code unmodified
and the shader cache (indeed the whole state) is unchanged. -/
theorem claim8_external_failure_propagates_unmodified
    (ext : ShaderTranslator) (st : MetalState) (src : List Nat) (ty : Nat) (e : Nat)
    (hin : st.inited = true)
    (hty : ty = METAL_SHADER_TYPE_VERTEX ∨ ty = METAL_SHADER_TYPE_FRAGMENT ∨
      ty = METAL_SHADER_TYPE_COMPUTE ∨ ty = METAL_SHADER_TYPE_KERNEL)
    (hmiss : lookupShaderInCache (ty, shaderSourceHash src) st.shaderCache = none) :
    (ext.translateMetalShaderToNVPTX src ty = .error e →
      (NVBridgeMetalCompileShader ext st src ty).result = .error e ∧
      (NVBridgeMetalCompileShader ext st src ty).state = st) ∧
    (∀ ptx : List Nat, ext.translateMetalShaderToNVPTX src ty = .ok ptx →
      ext.compileNVPTXToBinary ptx = .error e →
      (NVBridgeMetalCompileShader ext st src ty).result = .error e ∧
      (NVBridgeMetalCompileShader ext st src ty).state = st) := by
  constructor
  · intro htr
    simp [NVBridgeMetalCompileShader, hin, hty, hmiss, htr]
  · intro ptx htr hcp
    simp [NVBridgeMetalCompileShader, hin, hty, hmiss, htr, hcp]

/-- Witness for C8 at a concrete failing translator. -/
theorem claim8_external_failure_propagates_unmodified_witness :
    (NVBridgeMetalCompileShader ⟨fun _ _ => .error 7, fun _ => .ok []⟩
      ⟨true, []⟩ [3] 1).result = .error 7 ∧
    (NVBridgeMetalCompileShader ⟨fun _ _ => .error 7, fun _ => .ok []⟩
      ⟨true, []⟩ [3] 1).state = ⟨true, []⟩ :=
  (claim8_external_failure_propagates_unmodified
    ⟨fun _ _ => .error 7, fun _ => .ok []⟩ ⟨true, []⟩ [3] 1 7 rfl (Or.inl rfl) rfl).1 rfl

theorem addShaderToCache_fresh_append (k : ShaderKey) (p : List Nat)
    (es : ShaderCacheTable) (hk : k ∉ es.map Prod.fst)
    (hlen : es.length < MAX_SHADER_CACHE_ENTRIES) :
    addShaderToCache k p es = es ++ [(k, p)] := by
  simp [addShaderToCache, shaderCacheUpdateExisting_eq_none k p es hk, hlen]

theorem addShaderToCache_fresh_full (k : ShaderKey) (p : List Nat)
    (es : ShaderCacheTable) (hk : k ∉ es.map Prod.fst)
    (hlen : ¬ es.length < MAX_SHADER_CACHE_ENTRIES) :
    addShaderToCache k p es = es.set 0 (k, p) := by
  simp [addShaderToCache, shaderCacheUpdateExisting_eq_none k p es hk, hlen]

theorem shaderCacheInsertAll_of_nodup (pairs : List (ShaderKey × List Nat)) :
    ∀ acc : ShaderCacheTable,
      (((acc ++ pairs).map Prod.fst).Nodup) →
      (acc ++ pairs).length ≤ MAX_SHADER_CACHE_ENTRIES →
      shaderCacheInsertAll pairs acc = acc ++ pairs := by
  induction pairs with
  | nil => intro acc _ _; simp [shaderCacheInsertAll]
  | cons e tl ih =>
    intro acc hnd hlen
    have hnd' : (acc.map Prod.fst).Nodup ∧ ((e.1 :: tl.map Prod.fst).Nodup) ∧
        (acc.map Prod.fst).Disjoint (e.1 :: tl.map Prod.fst) := by
      rw [List.map_append] at hnd
      simpa [List.nodup_append] using hnd
    have hk : e.1 ∉ acc.map Prod.fst := fun hmem =>
      hnd'.2.2 hmem (List.mem_cons_self e.1 (tl.map Prod.fst))
    have hlt : acc.length < MAX_SHADER_CACHE_ENTRIES := by
      simp only [List.length_append, List.length_cons] at hlen
      omega
    have step : addShaderToCache e.1 e.2 acc = acc ++ [e] := by
      rw [addShaderToCache_fresh_append e.1 e.2 acc hk hlt]
    have hstep : shaderCacheInsertAll (e :: tl) acc =
        shaderCacheInsertAll tl (addShaderToCache e.1 e.2 acc) := rfl
    rw [hstep, step, ih (acc ++ [e])
        (by rw [List.append_assoc]; simpa using hnd)
        (by rw [List.append_assoc]; simpa using hlen)]
    simp

theorem lookupShaderInCache_not_mem (k : ShaderKey) :
    ∀ es : ShaderCacheTable, k ∉ es.map Prod.fst →
      lookupShaderInCache k es = none := by
  intro es
  induction es with
  | nil => intro _; rfl
  | cons e rest ih =>
    intro h
    simp only [List.map_cons, List.mem_cons] at h
    push_neg at h
    obtain ⟨h1, h2⟩ := h
    have h1' : ¬ e.1 = k := fun hh => h1 hh.symm
    simp [lookupShaderInCache, h1', ih h2]

theorem lookupShaderInCache_mem (k : ShaderKey) (p : List Nat) :
    ∀ es : ShaderCacheTable, (es.map Prod.fst).Nodup → (k, p) ∈ es →
      lookupShaderInCache k es = some p := by
  intro es
  induction es with
  | nil => intro _ hm; simp at hm
  | cons e rest ih =>
    intro hnd hm
    simp only [List.map_cons, List.nodup_cons] at hnd
    obtain ⟨he, hrest⟩ := hnd
    rcases List.mem_cons.mp hm with h | h
    · rw [← h]
      simp [lookupShaderInCache]
    · have hk : ¬ e.1 = k := by
        intro hh
        apply he
        rw [hh]
        exact List.mem_map_of_mem Prod.fst h
      simp [lookupShaderInCache, hk, ih hrest h]

/-- C2: filling the empty shader cache with
`MAX_SHADER_CACHE_ENTRIES + 1` entries with pairwise-distinct keys
(first `p0`, then `mid`, finally the newest entry `plast`) makes the key
that originally occupied slot 0 unreachable by lookup, while every other
original key and the newest key remain retrievable with their payloads;
moreover an insert of any fresh key into any full table always replaces
slot 0 (and being a total function it never fails). -/
theorem claim2_capacity_eviction_slot_zero
    (p0 plast : ShaderKey × List Nat) (mid : List (ShaderKey × List Nat))
    (hlen : (p0 :: (mid ++ [plast])).length = MAX_SHADER_CACHE_ENTRIES + 1)
    (hnd : ((p0 :: (mid ++ [plast])).map Prod.fst).Nodup) :
    lookupShaderInCache p0.1 (shaderCacheInsertAll (p0 :: (mid ++ [plast])) []) = none ∧
    (∀ e ∈ mid ++ [plast],
      lookupShaderInCache e.1 (shaderCacheInsertAll (p0 :: (mid ++ [plast])) []) = some e.2) ∧
    (∀ (es : ShaderCacheTable) (k : ShaderKey) (q : List Nat),
      es.length = MAX_SHADER_CACHE_ENTRIES → k ∉ es.map Prod.fst →
      addShaderToCache k q es = es.set 0 (k, q)) := by
  have hmidlen : mid.length + 2 = MAX_SHADER_CACHE_ENTRIES + 1 := by
    simpa using hlen
  have hnd' : (p0.1 :: (mid.map Prod.fst ++ [plast.1])).Nodup := by
    simpa using hnd
  rw [List.nodup_cons] at hnd'
  obtain ⟨hp0, hrest⟩ := hnd'
  have hp0mid : p0.1 ∉ mid.map Prod.fst := fun h => hp0 (List.mem_append_left _ h)
  have hp0last : p0.1 ≠ plast.1 := fun h => hp0 (List.mem_append_right _ (by simp [h]))
  rw [List.nodup_append] at hrest
  obtain ⟨hmidnd, _, hdisj⟩ := hrest
  have hplastmid : plast.1 ∉ mid.map Prod.fst := fun h => hdisj h (by simp)
  have hfold : shaderCacheInsertAll (p0 :: mid) [] = p0 :: mid := by
    apply shaderCacheInsertAll_of_nodup (p0 :: mid) []
    · simpa using List.nodup_cons.mpr ⟨hp0mid, hmidnd⟩
    · simp only [List.nil_append, List.length_cons]
      omega
  have hfinal : shaderCacheInsertAll (p0 :: (mid ++ [plast])) [] = plast :: mid := by
    have hsplit : shaderCacheInsertAll (p0 :: (mid ++ [plast])) [] =
        addShaderToCache plast.1 plast.2 (shaderCacheInsertAll (p0 :: mid) []) := by
      show shaderCacheInsertAll ((p0 :: mid) ++ [plast]) [] = _
      unfold shaderCacheInsertAll
      rw [List.foldl_append]
      rfl
    rw [hsplit, hfold]
    rw [addShaderToCache_fresh_full plast.1 plast.2 (p0 :: mid)
        (by
          simp only [List.map_cons, List.mem_cons]
          push_neg
          exact ⟨fun h => hp0last (h.symm), hplastmid⟩)
        (by simp only [List.length_cons]; omega)]
    simp
  refine ⟨?_, ?_, ?_⟩
  · rw [hfinal]
    apply lookupShaderInCache_not_mem
    simp only [List.map_cons, List.mem_cons]
    push_neg
    exact ⟨hp0last, hp0mid⟩
  · intro e he
    rw [hfinal]
    rcases List.mem_append.mp he with h | h
    · apply lookupShaderInCache_mem
      · simpa using List.nodup_cons.mpr ⟨hplastmid, hmidnd⟩
      · rw [Prod.mk.eta]
        exact List.mem_cons_of_mem _ h
    · have : e = plast := by simpa using h
      subst this
      simp [lookupShaderInCache]
  · intro es k q hfull hk
    exact addShaderToCache_fresh_full k q es hk (by omega)

/-- Concrete middle block for the C2 witness: 255 further distinct
keys. -/
def claim2WitnessMid : List (ShaderKey × List Nat) :=
  (List.range 255).map (fun j => ((j + 1, 0), [j + 1]))

set_option maxRecDepth 8192 in
/-- Witness for C2 at 257 concrete pairwise-distinct keys. -/
theorem claim2_capacity_eviction_slot_zero_witness :
    lookupShaderInCache (0, 0)
      (shaderCacheInsertAll (((0, 0), [0]) :: (claim2WitnessMid ++ [((256, 0), [256])])) []) = none ∧
    (∀ e ∈ claim2WitnessMid ++ [((256, 0), [256])],
      lookupShaderInCache e.1
        (shaderCacheInsertAll (((0, 0), [0]) :: (claim2WitnessMid ++ [((256, 0), [256])])) []) =
        some e.2) ∧
    (∀ (es : ShaderCacheTable) (k : ShaderKey) (q : List Nat),
      es.length = MAX_SHADER_CACHE_ENTRIES → k ∉ es.map Prod.fst →
      addShaderToCache k q es = es.set 0 (k, q)) :=
  claim2_capacity_eviction_slot_zero ((0, 0), [0]) ((256, 0), [256]) claim2WitnessMid
    (by simp [claim2WitnessMid, MAX_SHADER_CACHE_ENTRIES])
    (by decide)

theorem allocationsFind_upsert_self (ptr size : Nat) :
    ∀ l : List (Nat × Nat),
      allocationsFind ptr (allocationsUpsert ptr size l) = some size := by
  intro l
  induction l with
  | nil => simp [allocationsUpsert, allocationsFind]
  | cons e rest ih =>
    by_cases h : e.1 = ptr
    · simp [allocationsUpsert, allocationsFind, h]
    · simp [allocationsUpsert, allocationsFind, h, ih]

theorem allocationsFind_not_mem (ptr : Nat) :
    ∀ l : List (Nat × Nat), ptr ∉ l.map Prod.fst →
      allocationsFind ptr l = none := by
  intro l
  induction l with
  | nil => intro _; rfl
  | cons e rest ih =>
    intro h
    simp only [List.map_cons, List.mem_cons] at h
    push_neg at h
    obtain ⟨h1, h2⟩ := h
    have h1' : ¬ e.1 = ptr := fun hh => h1 hh.symm
    simp [allocationsFind, h1', ih h2]

theorem allocationsFind_erase_self (ptr : Nat) :
    ∀ l : List (Nat × Nat), (l.map Prod.fst).Nodup →
      allocationsFind ptr (allocationsErase ptr l) = none := by
  intro l
  induction l with
  | nil => intro _; rfl
  | cons e rest ih =>
    intro hnd
    simp only [List.map_cons, List.nodup_cons] at hnd
    obtain ⟨he, hrest⟩ := hnd
    by_cases h : e.1 = ptr
    · simp only [allocationsErase, h, if_true]
      apply allocationsFind_not_mem
      rw [← h]
      exact he
    · simp [allocationsErase, allocationsFind, h, ih hrest]

theorem runMemOp_memoryInfo (s : NVCoreState) (op : MemOp) :
    (runMemOp s op).memoryInfo = s.memoryInfo := by
  cases op with
  | alloc size flags ptr =>
    simp only [runMemOp, NVBridgeCore_allocateMemory]
    split
    · rfl
    · split
      · rfl
      · cases ptr <;> rfl
  | free ptr =>
    simp only [runMemOp, NVBridgeCore_freeMemory]
    split
    · rfl
    · split
      · rfl
      · cases allocationsFind ptr s.allocations <;> rfl

theorem runMemOps_memoryInfo (ops : List MemOp) :
    ∀ s : NVCoreState, (runMemOps s ops).memoryInfo = s.memoryInfo := by
  induction ops with
  | nil => intro s; rfl
  | cons op tl ih =>
    intro s
    show (runMemOps (runMemOp s op) tl).memoryInfo = s.memoryInfo
    rw [ih (runMemOp s op), runMemOp_memoryInfo]

/-- The state an `NVBridgeCore` instance starts from: nothing
initialized, no driver entry points, empty tables. -/
def coreStateFresh : NVCoreState :=
  { inited := false, hasAllocFn := false, hasFreeFn := false,
    hasSubmitFn := false, hasWaitFn := false, allocations := [],
    commandBuffers := [],
    memoryInfo := { totalMemory := 0, usedMemory := 0, freeMemory := 0 } }

/-- The state after a fully successful `initialize` on a supported
device: driver entry points resolved and the 4 GiB budget with zero
used, per `initializeMemoryManager`. -/
def coreStateAfterInit : NVCoreState :=
  (NVBridgeCore_initCore coreStateFresh 0x13C2 false
    ⟨true, true, true, true, true⟩).2

/-- C3 counterexample: starting from the post-initialization state, one
successful 4096-byte allocation leaves reported `usedMemory` at 0 while
the sum of aligned live allocation sizes is 4096, refuting
`used = sum of aligned sizes of live allocations`. -/
theorem claim3_counterexample :
    ¬ ((runMemOps coreStateAfterInit [MemOp.alloc 4096 0 (some 1)]).memoryInfo.usedMemory =
        alignedLiveSum (runMemOps coreStateAfterInit [MemOp.alloc 4096 0 (some 1)])) := by
  decide

/-- C3 (amended): for every sequence of allocate/free calls the
reported `memoryInfo` — in particular `usedMemory` — is never updated at
all, so `usedMemory` keeps its post-initialization value and (since that
value, 0, is at most the total) never exceeds `totalMemory`; it does not
track the sum of aligned sizes of the live allocations. -/
theorem claim3_amended_used_memory_never_updated (s : NVCoreState) (ops : List MemOp)
    (h : s.memoryInfo.usedMemory ≤ s.memoryInfo.totalMemory) :
    (runMemOps s ops).memoryInfo = s.memoryInfo ∧
    (runMemOps s ops).memoryInfo.usedMemory ≤ (runMemOps s ops).memoryInfo.totalMemory := by
  refine ⟨runMemOps_memoryInfo ops s, ?_⟩
  rw [runMemOps_memoryInfo ops s]
  exact h

/-- Witness for the amended C3 at the post-initialization state and a
concrete allocate/free sequence. -/
theorem claim3_amended_used_memory_never_updated_witness :
    (runMemOps coreStateAfterInit
        [MemOp.alloc 4097 0 (some 1), MemOp.free 1]).memoryInfo =
      coreStateAfterInit.memoryInfo ∧
    (runMemOps coreStateAfterInit
        [MemOp.alloc 4097 0 (some 1), MemOp.free 1]).memoryInfo.usedMemory ≤
      (runMemOps coreStateAfterInit
        [MemOp.alloc 4097 0 (some 1), MemOp.free 1]).memoryInfo.totalMemory :=
  claim3_amended_used_memory_never_updated coreStateAfterInit
    [MemOp.alloc 4097 0 (some 1), MemOp.free 1] (by decide)

/-- C4 counterexample: a successful 4097-byte allocation is recorded in
the allocation table as 4097 bytes, not the claimed 8192. -/
theorem claim4_counterexample :
    (NVBridgeCore_allocateMemory coreStateAfterInit 4097 0 (some 1)).1 = some 1 ∧
    ¬ (allocationsFind 1
        (NVBridgeCore_allocateMemory coreStateAfterInit 4097 0 (some 1)).2.allocations =
        some 8192) := by
  constructor
  · decide
  · decide

/-- C4 (amended): `allocateMemory` performs no alignment rounding: a
successful allocation is accounted in the allocation table at exactly
the raw requested size, so allocating 4097 bytes records exactly 4097
bytes. -/
theorem claim4_amended_raw_size_recorded (s : NVCoreState) (size flags ptr : Nat)
    (hin : s.inited = true) (hfn : s.hasAllocFn = true) :
    (NVBridgeCore_allocateMemory s size flags (some ptr)).1 = some ptr ∧
    allocationsFind ptr
      (NVBridgeCore_allocateMemory s size flags (some ptr)).2.allocations = some size := by
  constructor
  · simp [NVBridgeCore_allocateMemory, hin, hfn]
  · simp [NVBridgeCore_allocateMemory, hin, hfn, allocationsFind_upsert_self]

/-- Witness for the amended C4: allocating 4097 bytes records exactly
4097 bytes. -/
theorem claim4_amended_raw_size_recorded_witness :
    (NVBridgeCore_allocateMemory coreStateAfterInit 4097 0 (some 1)).1 = some 1 ∧
    allocationsFind 1
      (NVBridgeCore_allocateMemory coreStateAfterInit 4097 0 (some 1)).2.allocations =
      some 4097 :=
  claim4_amended_raw_size_recorded coreStateAfterInit 4097 0 1 (by decide) (by decide)

/-- C5: freeing a live handle removes its record and invokes the
driver release exactly once; a second free of the same handle takes the
unknown-handle branch, invokes no release, changes nothing, and the
budget fields are never credited in either call. -/
theorem claim5_double_free_rejected (s : NVCoreState) (ptr sz : Nat)
    (hnd : (s.allocations.map Prod.fst).Nodup)
    (hin : s.inited = true) (hfn : s.hasFreeFn = true)
    (hlive : allocationsFind ptr s.allocations = some sz) :
    (NVBridgeCore_freeMemory s ptr).1 = .freedOk ∧
    (NVBridgeCore_freeMemory s ptr).2.2 = 1 ∧
    allocationsFind ptr (NVBridgeCore_freeMemory s ptr).2.1.allocations = none ∧
    (NVBridgeCore_freeMemory s ptr).2.1.memoryInfo = s.memoryInfo ∧
    (NVBridgeCore_freeMemory (NVBridgeCore_freeMemory s ptr).2.1 ptr).1 = .unknownHandle ∧
    (NVBridgeCore_freeMemory (NVBridgeCore_freeMemory s ptr).2.1 ptr).2.2 = 0 ∧
    (NVBridgeCore_freeMemory (NVBridgeCore_freeMemory s ptr).2.1 ptr).2.1 =
      (NVBridgeCore_freeMemory s ptr).2.1 ∧
    (NVBridgeCore_freeMemory (NVBridgeCore_freeMemory s ptr).2.1 ptr).2.1.memoryInfo =
      s.memoryInfo := by
  have hfirst : NVBridgeCore_freeMemory s ptr =
      (.freedOk, { s with allocations := allocationsErase ptr s.allocations }, 1) := by
    simp [NVBridgeCore_freeMemory, hin, hfn, hlive]
  have hgone : allocationsFind ptr (allocationsErase ptr s.allocations) = none :=
    allocationsFind_erase_self ptr s.allocations hnd
  rw [hfirst]
  simp [NVBridgeCore_freeMemory, hin, hfn, hgone]

/-- Witness for C5 at a concrete state with one live allocation. -/
theorem claim5_double_free_rejected_witness :
    (NVBridgeCore_freeMemory { coreStateAfterInit with allocations := [(5, 100)] } 5).1 =
      .freedOk ∧
    (NVBridgeCore_freeMemory { coreStateAfterInit with allocations := [(5, 100)] } 5).2.2 = 1 ∧
    allocationsFind 5
      (NVBridgeCore_freeMemory { coreStateAfterInit with allocations := [(5, 100)] }
        5).2.1.allocations = none ∧
    (NVBridgeCore_freeMemory { coreStateAfterInit with allocations := [(5, 100)] }
      5).2.1.memoryInfo = { coreStateAfterInit with allocations := [(5, 100)] }.memoryInfo ∧
    (NVBridgeCore_freeMemory
      (NVBridgeCore_freeMemory { coreStateAfterInit with allocations := [(5, 100)] } 5).2.1
      5).1 = .unknownHandle ∧
    (NVBridgeCore_freeMemory
      (NVBridgeCore_freeMemory { coreStateAfterInit with allocations := [(5, 100)] } 5).2.1
      5).2.2 = 0 ∧
    (NVBridgeCore_freeMemory
      (NVBridgeCore_freeMemory { coreStateAfterInit with allocations := [(5, 100)] } 5).2.1
      5).2.1 =
      (NVBridgeCore_freeMemory { coreStateAfterInit with allocations := [(5, 100)] } 5).2.1 ∧
    (NVBridgeCore_freeMemory
      (NVBridgeCore_freeMemory { coreStateAfterInit with allocations := [(5, 100)] } 5).2.1
      5).2.1.memoryInfo = { coreStateAfterInit with allocations := [(5, 100)] }.memoryInfo :=
  claim5_double_free_rejected { coreStateAfterInit with allocations := [(5, 100)] } 5 100
    (by decide) (by decide) (by decide) (by decide)

theorem submitScan_not_found (driverResult targetId : Nat) :
    ∀ l : List NVCommandBuffer, (∀ cb ∈ l, cb.id ≠ targetId) →
      submitScan driverResult targetId l = (false, l) := by
  intro l
  induction l with
  | nil => intro _; rfl
  | cons cb rest ih =>
    intro h
    have hne : ¬ cb.id = targetId := h cb (List.mem_cons_self cb rest)
    have hrest : ∀ c ∈ rest, c.id ≠ targetId := fun c hc => h c (List.mem_cons_of_mem cb hc)
    simp [submitScan, hne, ih hrest]

theorem waitScan_not_found (driverResult targetId : Nat) :
    ∀ l : List NVCommandBuffer, (∀ cb ∈ l, cb.id ≠ targetId) →
      waitScan driverResult targetId l = (false, l) := by
  intro l
  induction l with
  | nil => intro _; rfl
  | cons cb rest ih =>
    intro h
    have hne : ¬ cb.id = targetId := h cb (List.mem_cons_self cb rest)
    have hrest : ∀ c ∈ rest, c.id ≠ targetId := fun c hc => h c (List.mem_cons_of_mem cb hc)
    simp [waitScan, hne, ih hrest]

/-- C9 (code bug): `createCommandBuffer` indeed exposes no error code,
but on an initialized bridge every call — including the claimed
allocation-failure case — re-locks the held non-recursive `m_mutex`
inside the nested `allocateMemory` call and self-deadlocks instead of
returning the id-0 record; only the uninitialized branch returns the
zero-filled record (id 0, null pointer, not submitted), registering
nothing, and submitting or waiting on that record returns false since
registered ids start at 1. -/
theorem claim9_create_command_buffer_deadlocks (s : NVCoreState)
    (dp : Option Nat) (dr : Nat)
    (hids : ∀ cb ∈ s.commandBuffers, cb.id ≠ 0) :
    (s.inited = true → NVBridgeCore_createCommandBuffer s dp = .deadlock) ∧
    (s.inited = false →
      NVBridgeCore_createCommandBuffer s dp = .returned (defaultCommandBuffer, s)) ∧
    defaultCommandBuffer.id = 0 ∧
    defaultCommandBuffer.cmdBufferPtr = none ∧
    defaultCommandBuffer.submitted = false ∧
    (NVBridgeCore_submitCommandBuffer s defaultCommandBuffer dr).1 = false ∧
    (NVBridgeCore_waitForCommandBuffer s defaultCommandBuffer dr).1 = false := by
  refine ⟨?_, ?_, rfl, rfl, rfl, ?_, ?_⟩
  · intro h
    simp [NVBridgeCore_createCommandBuffer, h]
  · intro h
    simp [NVBridgeCore_createCommandBuffer, h]
  · by_cases hin : s.inited = false
    · simp [NVBridgeCore_submitCommandBuffer, hin]
    · cases hfn : s.hasSubmitFn with
      | false => simp [NVBridgeCore_submitCommandBuffer, hin, hfn]
      | true =>
        have hscan : submitScan dr defaultCommandBuffer.id s.commandBuffers =
            (false, s.commandBuffers) :=
          submitScan_not_found dr defaultCommandBuffer.id s.commandBuffers
            (by simpa [defaultCommandBuffer] using hids)
        simp [NVBridgeCore_submitCommandBuffer, hin, hfn, hscan]
  · by_cases hin : s.inited = false
    · simp [NVBridgeCore_waitForCommandBuffer, hin]
    · cases hfn : s.hasWaitFn with
      | false => simp [NVBridgeCore_waitForCommandBuffer, hin, hfn]
      | true =>
        have hscan : waitScan dr defaultCommandBuffer.id s.commandBuffers =
            (false, s.commandBuffers) :=
          waitScan_not_found dr defaultCommandBuffer.id s.commandBuffers
            (by simpa [defaultCommandBuffer] using hids)
        simp [NVBridgeCore_waitForCommandBuffer, hin, hfn, hscan]

/-- Witness for C9 at a concrete initialized bridge with one registered
buffer: the call deadlocks, and submit/wait on the id-0 record return
false. -/
theorem claim9_create_command_buffer_deadlocks_witness :
    ({ coreStateAfterInit with
        commandBuffers := [⟨1, some 9, 65536, 0, false, false⟩] }.inited = true →
      NVBridgeCore_createCommandBuffer
        { coreStateAfterInit with
          commandBuffers := [⟨1, some 9, 65536, 0, false, false⟩] } none = .deadlock) ∧
    ({ coreStateAfterInit with
        commandBuffers := [⟨1, some 9, 65536, 0, false, false⟩] }.inited = false →
      NVBridgeCore_createCommandBuffer
        { coreStateAfterInit with
          commandBuffers := [⟨1, some 9, 65536, 0, false, false⟩] } none =
        .returned (defaultCommandBuffer,
          { coreStateAfterInit with
            commandBuffers := [⟨1, some 9, 65536, 0, false, false⟩] })) ∧
    defaultCommandBuffer.id = 0 ∧
    defaultCommandBuffer.cmdBufferPtr = none ∧
    defaultCommandBuffer.submitted = false ∧
    (NVBridgeCore_submitCommandBuffer
      { coreStateAfterInit with
        commandBuffers := [⟨1, some 9, 65536, 0, false, false⟩] }
      defaultCommandBuffer 0).1 = false ∧
    (NVBridgeCore_waitForCommandBuffer
      { coreStateAfterInit with
        commandBuffers := [⟨1, some 9, 65536, 0, false, false⟩] }
      defaultCommandBuffer 0).1 = false :=
  claim9_create_command_buffer_deadlocks
    { coreStateAfterInit with commandBuffers := [⟨1, some 9, 65536, 0, false, false⟩] }
    none 0 (by decide)

/-- C10: calling `initialize` on an already-initialized bridge returns
SUCCESS immediately and leaves the entire bridge state unchanged,
regardless of the deviceID, forceInit and environment of the second
call. -/
theorem claim10_second_init_returns_success_unchanged (s : NVCoreState)
    (h : s.inited = true) :
    ∀ (deviceID : Nat) (forceInit : Bool) (env : CoreInitEnv),
      NVBridgeCore_initCore s deviceID forceInit env = (.SUCCESS, s) := by
  intro deviceID forceInit env
  simp [NVBridgeCore_initCore, h]

/-- Witness for C10 at the post-initialization state and arbitrary
second-call arguments. -/
theorem claim10_second_init_returns_success_unchanged_witness :
    NVBridgeCore_initCore coreStateAfterInit 0x9999 true
      ⟨false, false, false, false, false⟩ = (.SUCCESS, coreStateAfterInit) :=
  claim10_second_init_returns_success_unchanged coreStateAfterInit (by decide)
    0x9999 true ⟨false, false, false, false, false⟩
